import Mathlib

/-!
Shallow embedding of the authentication and account-lockout core of the
secure-flask-api repository (src/app/models.py, src/app/routes/auth.py,
src/app/routes/api.py).

Time is modelled as `Nat` minutes (the code only compares `datetime`
values and adds a 30-minute delta, so an abstract discrete clock is
faithful).  Password hashing (werkzeug `generate_password_hash` /
`check_password_hash` and the bcrypt pair used for user passwords) is
modelled as an injective tagging function: the code treats both as an
opaque hash/verify pair where verification succeeds exactly on the
plaintext that was hashed.
-/

namespace SecureFlask

/-- Model of werkzeug `generate_password_hash` (used for API keys in
`ApiKey.set_key`): an opaque, injective one-way encoding. -/
def generate_password_hash (key : String) : String :=
  String.append "pbkdf2-sha256$" key

/-- Model of werkzeug `check_password_hash`: succeeds exactly when the
presented plaintext is the one that produced the stored hash. -/
def check_password_hash (hash key : String) : Bool :=
  hash == generate_password_hash key

/-- Model of `bcrypt.generate_password_hash` (used for user passwords). -/
def bcrypt_generate_password_hash (password : String) : String :=
  String.append "bcrypt$12$" password

/-- Model of `bcrypt.check_password_hash`. -/
def bcrypt_check_password_hash (hash password : String) : Bool :=
  hash == bcrypt_generate_password_hash password

/-- User row of the `users` table (src/app/models.py, class User). -/
structure User where
  id : Nat
  username : String
  email : String
  password_hash : String
  is_active : Bool
  is_admin : Bool
  failed_login_attempts : Nat
  last_failed_login : Option Nat
  account_locked_until : Option Nat
  created_at : Nat
  last_login : Option Nat
deriving Repr, DecidableEq

/-- ApiKey row of the `api_keys` table (src/app/models.py, class ApiKey). -/
structure ApiKey where
  id : Nat
  key_hash : String
  name : String
  user_id : Nat
  is_active : Bool
  last_used : Option Nat
  created_at : Nat
  expires_at : Option Nat
deriving Repr, DecidableEq

/-- User.check_password: verify a password against the stored hash. -/
def User.check_password (u : User) (password : String) : Bool :=
  bcrypt_check_password_hash u.password_hash password

/-- User.is_account_locked: returns the (possibly lazily unlocked) user
record together with the boolean answer.  The Python method mutates
`self` and commits when the lock period has expired. -/
def User.is_account_locked (u : User) (now : Nat) : User × Bool :=
  match u.account_locked_until with
  | some t =>
      if now < t then (u, true)
      else ({ u with account_locked_until := none, failed_login_attempts := 0 }, false)
  | none => (u, false)

/-- User.record_failed_login: increment the counter, stamp the failure,
and (re)set the 30-minute lock whenever the counter is at least 5. -/
def User.record_failed_login (u : User) (now : Nat) : User :=
  let u' := { u with failed_login_attempts := u.failed_login_attempts + 1,
                     last_failed_login := some now }
  if u'.failed_login_attempts ≥ 5 then
    { u' with account_locked_until := some (now + 30) }
  else u'

/-- User.reset_failed_logins: clear the lockout state after a successful
login and stamp last_login. -/
def User.reset_failed_logins (u : User) (now : Nat) : User :=
  { u with failed_login_attempts := 0, last_failed_login := none,
           account_locked_until := none, last_login := some now }

/-- ApiKey.set_key: store only the hash of the raw key material. -/
def ApiKey.set_key (k : ApiKey) (key : String) : ApiKey :=
  { k with key_hash := generate_password_hash key }

/-- ApiKey.verify_key: inactive keys fail, keys whose expiry is set and
strictly in the past fail, otherwise compare against the stored hash. -/
def ApiKey.verify_key (k : ApiKey) (key : String) (now : Nat) : Bool :=
  if !k.is_active then false
  else if (match k.expires_at with | some e => decide (e < now) | none => false) then false
  else check_password_hash k.key_hash key

/-- ApiKey.record_usage: stamp last_used. -/
def ApiKey.record_usage (k : ApiKey) (now : Nat) : ApiKey :=
  { k with last_used := some now }

/-- Persist a mutated user record: the ORM session holds one row per id,
so committing replaces the row with the same primary key. -/
def updateUser (users : List User) (u : User) : List User :=
  users.map (fun v => if v.id == u.id then u else v)

/-- Persist a mutated api-key record, by primary key. -/
def updateKey (keys : List ApiKey) (k : ApiKey) : List ApiKey :=
  keys.map (fun v => if v.id == k.id then k else v)

/-- User lookup used by both login flows:
`(User.username == ident) | (User.email == ident.lower())`. -/
def find_user_by_username_or_email (users : List User) (ident : String) : Option User :=
  users.find? (fun u => u.username == ident || u.email == ident.toLower)

/-- Outcome of the session login flow (src/app/routes/auth.py, login). -/
inductive LoginResult where
  | invalidCredentials
  | accountLocked
  | accountDeactivated
  | success
deriving Repr, DecidableEq

/-- Session login (src/app/routes/auth.py, `login`): lookup by
username-or-email; reject locked accounts first (with the lazy-unlock
side effect committed); then verify the password; a matching password on
an inactive account is rejected; a mismatch on an existing user records
a failed attempt; success resets the counters. -/
def login (users : List User) (ident password : String) (now : Nat) :
    LoginResult × List User :=
  match find_user_by_username_or_email users ident with
  | none => (.invalidCredentials, users)
  | some u0 =>
      let p := u0.is_account_locked now
      let u := p.1
      let users1 := updateUser users u
      if p.2 then (.accountLocked, users1)
      else if u.check_password password then
        if !u.is_active then (.accountDeactivated, users1)
        else (.success, updateUser users1 (u.reset_failed_logins now))
      else
        (.invalidCredentials, updateUser users1 (u.record_failed_login now))

/-- Outcome of the API login flow (src/app/routes/api.py, api_login). -/
inductive ApiLoginResult where
  | invalidCredentials
  | accountLocked
  | accountDeactivated
  | success (api_key : String)
deriving Repr, DecidableEq

/-- Construct the ApiKey record created by `api_login`
(name "API Key - device", no expiry, active by default). -/
def mkIssuedKey (newKeyId : Nat) (device : String) (userId : Nat)
    (raw : String) (now : Nat) : ApiKey :=
  ApiKey.set_key
    { id := newKeyId
      key_hash := ""
      name := String.append "API Key - " device
      user_id := userId
      is_active := true
      last_used := none
      created_at := now
      expires_at := none } raw

/-- API login (src/app/routes/api.py, `api_login`): lookup by
username-or-email; reject with a generic 401 when the user is missing OR
the password does not match (no failure is recorded); only then check
the account lock (with its lazy-unlock side effect) and the active flag;
on success issue a fresh ApiKey hashed from `raw` and reset the
counters. -/
def api_login (users : List User) (username password : String)
    (raw device : String) (newKeyId : Nat) (now : Nat) :
    ApiLoginResult × List User × Option ApiKey :=
  match find_user_by_username_or_email users username with
  | none => (.invalidCredentials, users, none)
  | some u0 =>
      if !u0.check_password password then (.invalidCredentials, users, none)
      else
        let p := u0.is_account_locked now
        let u := p.1
        let users1 := updateUser users u
        if p.2 then (.accountLocked, users1, none)
        else if !u.is_active then (.accountDeactivated, users1, none)
        else
          let k := mkIssuedKey newKeyId device u.id raw now
          (.success raw, updateUser users1 (u.reset_failed_logins now), some k)

/-- Outcome of the api_key_required decorator (src/app/routes/api.py). -/
inductive ApiAuthResult where
  | missingKey
  | invalidKey
  | accountDeactivated
  | integrityError
  | authenticated (user : User)
deriving Repr, DecidableEq

/-- HTTP status code of each decorator outcome. -/
def ApiAuthResult.statusCode : ApiAuthResult → Nat
  | .missingKey => 401
  | .invalidKey => 401
  | .accountDeactivated => 403
  | .integrityError => 500
  | .authenticated _ => 200

/-- api_key_required (src/app/routes/api.py): scan the active keys for
the first one whose hash verifies the presented raw key; record its
usage; 401 when the header is absent or nothing matches; 403 when the
key matches but its owner is inactive.  `integrityError` marks the
impossible dangling foreign key (api_keys.user_id references users.id,
nullable=False). -/
def api_key_required (keys : List ApiKey) (users : List User)
    (header : Option String) (now : Nat) : ApiAuthResult × List ApiKey :=
  match header with
  | none => (.missingKey, keys)
  | some api_key =>
      match (keys.filter (fun k => k.is_active)).find? (fun k => k.verify_key api_key now) with
      | none => (.invalidKey, keys)
      | some k =>
          let keys1 := updateKey keys (k.record_usage now)
          match users.find? (fun u => u.id == k.user_id) with
          | none => (.integrityError, keys1)
          | some user =>
              if !user.is_active then (.accountDeactivated, keys1)
              else (.authenticated user, keys1)

/-- Outcome of DELETE /api/keys/id (src/app/routes/api.py, revoke_api_key). -/
inductive RevokeResult where
  | notFound
  | revoked
deriving Repr, DecidableEq

/-- revoke_api_key: delete the key only when a key with this id owned by
the caller exists; otherwise 404 and no key is deleted. -/
def revoke_api_key (keys : List ApiKey) (callerId keyId : Nat) :
    RevokeResult × List ApiKey :=
  match keys.find? (fun k => k.id == keyId && k.user_id == callerId) with
  | none => (.notFound, keys)
  | some _ =>
      (.revoked, keys.filter (fun k => !(k.id == keyId && k.user_id == callerId)))

/-- Outcome of DELETE /api/users/id (src/app/routes/api.py, delete_user). -/
inductive DeleteUserResult where
  | adminRequired
  | selfDeleteRejected
  | notFound
  | deleted
deriving Repr, DecidableEq

/-- delete_user behind admin_required: non-admin callers are rejected
403; a caller targeting their own id is rejected 400 before any lookup;
an unknown id is 404; otherwise the user row is deleted and the
ORM cascade removes the user's api keys. -/
def delete_user (users : List User) (keys : List ApiKey) (caller : User)
    (targetId : Nat) : DeleteUserResult × List User × List ApiKey :=
  if !caller.is_admin then (.adminRequired, users, keys)
  else if targetId == caller.id then (.selfDeleteRejected, users, keys)
  else
    match users.find? (fun u => u.id == targetId) with
    | none => (.notFound, users, keys)
    | some _ =>
        (.deleted, users.filter (fun u => !(u.id == targetId)),
         keys.filter (fun k => !(k.user_id == targetId)))

/-- Payload of PUT /api/users/id: each field is optional; only these
three keys are read by the handler. -/
structure UserUpdate where
  is_active : Option Bool
  is_admin : Option Bool
  email : Option String
deriving Repr, DecidableEq

/-- Field-update block of update_user (src/app/routes/api.py lines
303-308): is_active, is_admin and lowercased email are the only
assignments. -/
def apply_admin_update (u : User) (d : UserUpdate) : User :=
  let u1 := match d.is_active with | some b => { u with is_active := b } | none => u
  let u2 := match d.is_admin with | some b => { u1 with is_admin := b } | none => u1
  match d.email with | some e => { u2 with email := e.toLower } | none => u2

/-- Outcome of PUT /api/users/id (src/app/routes/api.py, update_user). -/
inductive UpdateResult where
  | adminRequired
  | notFound
  | updated
deriving Repr, DecidableEq

/-- update_user behind admin_required: find the target user, apply the
three allowed field updates, commit. -/
def update_user (users : List User) (caller : User) (targetId : Nat)
    (d : UserUpdate) : UpdateResult × List User :=
  if !caller.is_admin then (.adminRequired, users)
  else
    match users.find? (fun u => u.id == targetId) with
    | none => (.notFound, users)
    | some u => (.updated, updateUser users (apply_admin_update u d))

/-- Injectivity of the hash model: distinct raw keys have distinct hashes. -/
theorem generate_password_hash_inj {a b : String}
    (h : generate_password_hash a = generate_password_hash b) : a = b := by
  have h2 := congrArg String.data h
  rw [show (generate_password_hash a).data = "pbkdf2-sha256$".data ++ a.data from
        String.data_append _ _,
      show (generate_password_hash b).data = "pbkdf2-sha256$".data ++ b.data from
        String.data_append _ _] at h2
  exact String.ext (List.append_cancel_left h2)

/-- Sample user fixture used by witnesses and counterexamples. -/
def sampleUser (lockedUntil : Option Nat) (failed : Nat) : User :=
  { id := 1, username := "alice", email := "alice@example.com",
    password_hash := bcrypt_generate_password_hash "Str0ngPass",
    is_active := true, is_admin := false,
    failed_login_attempts := failed, last_failed_login := none,
    account_locked_until := lockedUntil, created_at := 0, last_login := none }

/-- Sample admin user fixture. -/
def sampleAdmin : User :=
  { id := 2, username := "root", email := "root@example.com",
    password_hash := bcrypt_generate_password_hash "Adm1nPass",
    is_active := true, is_admin := true,
    failed_login_attempts := 0, last_failed_login := none,
    account_locked_until := none, created_at := 0, last_login := none }

/-- Sample api-key fixture (owned by user 1, key id 10). -/
def sampleKey (active : Bool) (expiresAt : Option Nat) : ApiKey :=
  (ApiKey.set_key
    { id := 10, key_hash := "", name := "API Key - cli", user_id := 1,
      is_active := active, last_used := none, created_at := 0,
      expires_at := expiresAt } "rawsecret")

/-- C4: for every user state and time now, is_account_locked answers locked
without mutation while locked_until lies strictly in the future, lazily
clears locked_until and resets the counter to 0 once now has reached
locked_until, and answers unlocked without mutation when locked_until is
unset. -/
theorem C4_is_account_locked_cases (u : User) (now : Nat) :
    (∀ t, u.account_locked_until = some t → now < t →
        u.is_account_locked now = (u, true)) ∧
    (∀ t, u.account_locked_until = some t → t ≤ now →
        u.is_account_locked now =
          ({ u with account_locked_until := none, failed_login_attempts := 0 }, false)) ∧
    (u.account_locked_until = none → u.is_account_locked now = (u, false)) := by
  refine ⟨fun t ht hlt => ?_, fun t ht hle => ?_, fun h => ?_⟩
  · simp [User.is_account_locked, ht, hlt]
  · simp [User.is_account_locked, ht, Nat.not_lt.mpr hle]
  · simp [User.is_account_locked, h]

/-- Witness for C4 at concrete states: locked at time 5 with lock 100,
lazily unlocked at time 200, and a user with no lock set. -/
theorem C4_witness :
    (sampleUser (some 100) 3).is_account_locked 5 = (sampleUser (some 100) 3, true) ∧
    (sampleUser (some 100) 3).is_account_locked 200 =
      ({ sampleUser (some 100) 3 with
          account_locked_until := none, failed_login_attempts := 0 }, false) ∧
    (sampleUser none 0).is_account_locked 5 = (sampleUser none 0, false) :=
  ⟨(C4_is_account_locked_cases (sampleUser (some 100) 3) 5).1 100 rfl (by decide),
   (C4_is_account_locked_cases (sampleUser (some 100) 3) 200).2.1 100 rfl (by decide),
   (C4_is_account_locked_cases (sampleUser none 0) 5).2.2 rfl⟩

/-- C6: a key whose expiry is set and strictly in the past fails
verify_key for every presented raw value, even while its active flag is
still true. -/
theorem C6_expired_key_fails_verify (k : ApiKey) (key : String) (now e : Nat)
    (hexp : k.expires_at = some e) (hpast : e < now) (hact : k.is_active = true) :
    k.verify_key key now = false := by
  simp [ApiKey.verify_key, hexp, hact, hpast]

/-- Witness for C6: an active key that expired at time 50, verified with
its own correct raw value at time 60, still fails. -/
theorem C6_witness :
    (sampleKey true (some 50)).expires_at = some 50 ∧ (50 : Nat) < 60 ∧
    (sampleKey true (some 50)).is_active = true ∧
    (sampleKey true (some 50)).verify_key "rawsecret" 60 = false :=
  ⟨rfl, by decide, rfl,
   C6_expired_key_fails_verify (sampleKey true (some 50)) "rawsecret" 60 50
     rfl (by decide) rfl⟩

/-- C9: a caller with the admin flag set who targets their own user id is
rejected with the 400-class selfDeleteRejected outcome, and neither the
users table nor the api_keys table changes. -/
theorem C9_no_self_delete (users : List User) (keys : List ApiKey) (caller : User)
    (hadmin : caller.is_admin = true) :
    delete_user users keys caller caller.id = (.selfDeleteRejected, users, keys) := by
  simp [delete_user, hadmin]

/-- Witness for C9: the sample admin deleting their own id 2. -/
theorem C9_witness :
    delete_user [sampleUser none 0, sampleAdmin] [sampleKey true none] sampleAdmin 2 =
      (.selfDeleteRejected, [sampleUser none 0, sampleAdmin], [sampleKey true none]) := by
  have h := C9_no_self_delete [sampleUser none 0, sampleAdmin] [sampleKey true none]
    sampleAdmin rfl
  simpa using h

/-- C10: an admin update of an existing user changes only is_active,
is_admin and the lowercased email; username, password_hash,
failed_login_attempts, last_failed_login, account_locked_until,
created_at (and also id and last_login) are unchanged, and the store is
updated exactly at the target record. -/
theorem C10_update_user_frame (users : List User) (caller u : User) (targetId : Nat)
    (d : UserUpdate) (hadmin : caller.is_admin = true)
    (hfind : users.find? (fun v => v.id == targetId) = some u) :
    update_user users caller targetId d =
      (.updated, updateUser users (apply_admin_update u d)) ∧
    (apply_admin_update u d).id = u.id ∧
    (apply_admin_update u d).username = u.username ∧
    (apply_admin_update u d).password_hash = u.password_hash ∧
    (apply_admin_update u d).failed_login_attempts = u.failed_login_attempts ∧
    (apply_admin_update u d).last_failed_login = u.last_failed_login ∧
    (apply_admin_update u d).account_locked_until = u.account_locked_until ∧
    (apply_admin_update u d).created_at = u.created_at ∧
    (apply_admin_update u d).last_login = u.last_login ∧
    (apply_admin_update u d).email = (d.email.map String.toLower).getD u.email ∧
    (apply_admin_update u d).is_active = d.is_active.getD u.is_active ∧
    (apply_admin_update u d).is_admin = d.is_admin.getD u.is_admin := by
  rcases d with ⟨da, dm, de⟩
  cases da <;> cases dm <;> cases de <;>
    simp [update_user, hadmin, hfind, apply_admin_update]

/-- Witness for C10: the admin sets is_active := false and a mixed-case
email on user 1; all lockout and credential fields survive. -/
theorem C10_witness :
    update_user [sampleUser none 3, sampleAdmin] sampleAdmin 1
        { is_active := some false, is_admin := none, email := some "Alice@Example.COM" } =
      (.updated,
       updateUser [sampleUser none 3, sampleAdmin]
         (apply_admin_update (sampleUser none 3)
           { is_active := some false, is_admin := none, email := some "Alice@Example.COM" })) ∧
    (apply_admin_update (sampleUser none 3)
      { is_active := some false, is_admin := none, email := some "Alice@Example.COM" }).username =
      (sampleUser none 3).username ∧
    (apply_admin_update (sampleUser none 3)
      { is_active := some false, is_admin := none, email := some "Alice@Example.COM" }).failed_login_attempts =
      (sampleUser none 3).failed_login_attempts ∧
    (apply_admin_update (sampleUser none 3)
      { is_active := some false, is_admin := none, email := some "Alice@Example.COM" }).email =
      "Alice@Example.COM".toLower := by
  have h := C10_update_user_frame [sampleUser none 3, sampleAdmin] sampleAdmin
    (sampleUser none 3) 1
    { is_active := some false, is_admin := none, email := some "Alice@Example.COM" }
    rfl (by decide)
  exact ⟨h.1, h.2.2.1, h.2.2.2.2.1, h.2.2.2.2.2.2.2.2.2.1⟩

/-- C8: revocation of an api key succeeds exactly when a key with the
requested id owned by the caller exists; when no such key exists the
outcome is NotFound and the key table is unchanged. -/
theorem C8_revoke_owned_only (keys : List ApiKey) (callerId keyId : Nat) :
    ((revoke_api_key keys callerId keyId).1 = .revoked ↔
       ∃ k ∈ keys, k.id = keyId ∧ k.user_id = callerId) ∧
    ((∀ k ∈ keys, ¬(k.id = keyId ∧ k.user_id = callerId)) →
       revoke_api_key keys callerId keyId = (.notFound, keys)) := by
  constructor
  · unfold revoke_api_key
    cases hf : keys.find? (fun k => k.id == keyId && k.user_id == callerId) with
    | none =>
        simp only [hf]
        constructor
        · intro h; exact absurd h (by simp)
        · rintro ⟨k, hk, h1, h2⟩
          have := List.find?_eq_none.mp hf k hk
          simp [h1, h2] at this
    | some k =>
        simp only [hf]
        have hp := List.find?_some hf
        simp only [Bool.and_eq_true, beq_iff_eq] at hp
        exact iff_of_true trivial ⟨k, List.mem_of_find?_eq_some hf, hp.1, hp.2⟩
  · intro hnone
    unfold revoke_api_key
    have : keys.find? (fun k => k.id == keyId && k.user_id == callerId) = none := by
      apply List.find?_eq_none.mpr
      intro k hk
      simpa using hnone k hk
    simp [this]

/-- Witness for C8: owner 1 revokes key 10 successfully; caller 2 gets
NotFound and the table is untouched. -/
theorem C8_witness :
    (revoke_api_key [sampleKey true none] 1 10).1 = .revoked ∧
    revoke_api_key [sampleKey true none] 2 10 = (.notFound, [sampleKey true none]) :=
  ⟨(C8_revoke_owned_only [sampleKey true none] 1 10).1.mpr
     ⟨sampleKey true none, by decide, rfl, rfl⟩,
   (C8_revoke_owned_only [sampleKey true none] 2 10).2 (by decide)⟩

/-- Five-fold application of record_failed_login at one instant. -/
def fiveFailures (u : User) (t : Nat) : User :=
  ((((u.record_failed_login t).record_failed_login t).record_failed_login
      t).record_failed_login t).record_failed_login t

/-- Counterexample to C3: from a fresh user, five failures at time 0 lock
the account until 30; at time 1 the account is still locked, yet a sixth
record_failed_login re-sets locked_until to 31, extending the lock —
the transition is not one-shot. -/
theorem C3_counterexample :
    (fiveFailures (sampleUser none 0) 0).failed_login_attempts = 5 ∧
    (fiveFailures (sampleUser none 0) 0).account_locked_until = some 30 ∧
    ((fiveFailures (sampleUser none 0) 0).is_account_locked 1).2 = true ∧
    ((fiveFailures (sampleUser none 0) 0).record_failed_login 1).account_locked_until =
      some 31 ∧
    some 31 ≠ some (0 + 30) := by decide

/-- C3 as amended: from a fresh user, five record_failed_login calls at
time t give counter 5 and locked_until = t + 30, and every further
failure at an instant t6 re-sets locked_until to t6 + 30 (so a later
sixth failure extends the lock instead of leaving it untouched). -/
theorem C3_lockout_after_five_failures (u : User) (t t6 : Nat)
    (hfresh : u.failed_login_attempts = 0) :
    (fiveFailures u t).failed_login_attempts = 5 ∧
    (fiveFailures u t).account_locked_until = some (t + 30) ∧
    ((fiveFailures u t).record_failed_login t6).account_locked_until =
      some (t6 + 30) := by
  simp [fiveFailures, User.record_failed_login, hfresh]

/-- Witness for C3 as amended: the fresh sample user, five failures at
time 2, a sixth at time 7. -/
theorem C3_witness :
    (fiveFailures (sampleUser none 0) 2).failed_login_attempts = 5 ∧
    (fiveFailures (sampleUser none 0) 2).account_locked_until = some 32 ∧
    ((fiveFailures (sampleUser none 0) 2).record_failed_login 7).account_locked_until =
      some 37 :=
  C3_lockout_after_five_failures (sampleUser none 0) 2 7 rfl

/-- Counterexample to C2: at time 0 the sample user is resolved and is
locked until 100, yet api_login with a wrong password answers the
generic InvalidCredentials 401, not AccountLocked — the lock check does
not precede the password check in the API flow. -/
theorem C2_counterexample :
    find_user_by_username_or_email [sampleUser (some 100) 5] "alice" =
      some (sampleUser (some 100) 5) ∧
    ((sampleUser (some 100) 5).is_account_locked 0).2 = true ∧
    (api_login [sampleUser (some 100) 5] "alice" "wrongpass" "raw" "dev" 7 0).1 =
      .invalidCredentials ∧
    (api_login [sampleUser (some 100) 5] "alice" "wrongpass" "raw" "dev" 7 0).1 ≠
      .accountLocked := by decide

/-- C2 as amended: in api_login the password check precedes the lock
check. A resolved user whose password does not match is rejected with
the generic InvalidCredentials even while locked; only a resolved user
whose password matches and who is locked at now is rejected with
AccountLocked. -/
theorem C2_password_check_precedes_lock (users : List User) (u : User)
    (username password raw device : String) (newKeyId now : Nat)
    (hfind : find_user_by_username_or_email users username = some u) :
    (u.check_password password = false →
       api_login users username password raw device newKeyId now =
         (.invalidCredentials, users, none)) ∧
    (u.check_password password = true → (u.is_account_locked now).2 = true →
       (api_login users username password raw device newKeyId now).1 =
         .accountLocked) := by
  constructor
  · intro hpw
    simp [api_login, hfind, hpw]
  · intro hpw hlock
    simp [api_login, hfind, hpw, hlock]

/-- Witness for C2 as amended: the locked sample user with the wrong
password gets InvalidCredentials; with the correct password gets
AccountLocked. -/
theorem C2_witness :
    api_login [sampleUser (some 100) 5] "alice" "wrongpass" "raw" "dev" 7 0 =
      (.invalidCredentials, [sampleUser (some 100) 5], none) ∧
    (api_login [sampleUser (some 100) 5] "alice" "Str0ngPass" "raw" "dev" 7 0).1 =
      .accountLocked :=
  ⟨(C2_password_check_precedes_lock [sampleUser (some 100) 5] (sampleUser (some 100) 5)
      "alice" "wrongpass" "raw" "dev" 7 0 (by decide)).1 (by decide),
   (C2_password_check_precedes_lock [sampleUser (some 100) 5] (sampleUser (some 100) 5)
      "alice" "Str0ngPass" "raw" "dev" 7 0 (by decide)).2 (by decide) (by decide)⟩

/-- Counterexample to C1: in the API flow the sample user is resolved
and the presented password does not match, yet api_login returns the
users table unchanged — failed_login_attempts stays 0 and
last_failed_login stays unset, so record_failure was not invoked. -/
theorem C1_counterexample :
    find_user_by_username_or_email [sampleUser none 0] "alice" =
      some (sampleUser none 0) ∧
    (sampleUser none 0).check_password "wrongpass" = false ∧
    api_login [sampleUser none 0] "alice" "wrongpass" "raw" "dev" 7 3 =
      (.invalidCredentials, [sampleUser none 0], none) ∧
    (sampleUser none 0).failed_login_attempts = 0 ∧
    (sampleUser none 0).last_failed_login = none := by decide

/-- C1 as amended: in session login, a resolved user who is not locked
and whose password does not match has a failure recorded
(failed_login_attempts + 1, last_failed_login = now) and receives the
generic InvalidCredentials; in the API-key issuance flow a resolved user
whose password does not match receives the same generic
InvalidCredentials but no failure is recorded — the store is returned
unchanged. -/
theorem C1_failure_recording (users : List User)
    (ident password raw device : String) (newKeyId now : Nat) (u0 : User)
    (hfind : find_user_by_username_or_email users ident = some u0) :
    ((u0.is_account_locked now).2 = false →
      (u0.is_account_locked now).1.check_password password = false →
      login users ident password now =
        (.invalidCredentials,
         updateUser (updateUser users (u0.is_account_locked now).1)
           ((u0.is_account_locked now).1.record_failed_login now)) ∧
      ((u0.is_account_locked now).1.record_failed_login now).failed_login_attempts =
        (u0.is_account_locked now).1.failed_login_attempts + 1 ∧
      ((u0.is_account_locked now).1.record_failed_login now).last_failed_login =
        some now) ∧
    (u0.check_password password = false →
      api_login users ident password raw device newKeyId now =
        (.invalidCredentials, users, none)) := by
  constructor
  · intro hlock hpw
    refine ⟨?_, ?_, ?_⟩
    · simp [login, hfind, hlock, hpw]
    · simp only [User.record_failed_login]
      split <;> rfl
    · simp only [User.record_failed_login]
      split <;> rfl
  · intro hpw
    simp [api_login, hfind, hpw]

/-- Witness for C1 as amended: the fresh sample user with a wrong
password at time 3 in both flows. -/
theorem C1_witness :
    login [sampleUser none 0] "alice" "wrongpass" 3 =
      (.invalidCredentials,
       updateUser (updateUser [sampleUser none 0]
           ((sampleUser none 0).is_account_locked 3).1)
         (((sampleUser none 0).is_account_locked 3).1.record_failed_login 3)) ∧
    (((sampleUser none 0).is_account_locked 3).1.record_failed_login 3).failed_login_attempts =
      ((sampleUser none 0).is_account_locked 3).1.failed_login_attempts + 1 ∧
    (((sampleUser none 0).is_account_locked 3).1.record_failed_login 3).last_failed_login =
      some 3 ∧
    api_login [sampleUser none 0] "alice" "wrongpass" "raw" "dev" 7 3 =
      (.invalidCredentials, [sampleUser none 0], none) := by
  have h := C1_failure_recording [sampleUser none 0] "alice" "wrongpass" "raw" "dev" 7 3
    (sampleUser none 0) (by decide)
  have h1 := h.1 (by decide) (by decide)
  exact ⟨h1.1, h1.2.1, h1.2.2, h.2 (by decide)⟩

/-- Scanning a concatenation whose left part has no match continues in
the right part. -/
theorem find?_append_left_none {α} {p : α → Bool} {l1 l2 : List α}
    (h : l1.find? p = none) : (l1 ++ l2).find? p = l2.find? p := by
  rw [List.find?_append, h, Option.none_or]

/-- An inactive user fixture (id 1) for the guard theorems. -/
def sampleInactiveUser : User :=
  { sampleUser none 0 with is_active := false }

/-- C7: on the API-key-guarded endpoint, when no active stored key
verifies the presented raw key the outcome is the 401 invalidKey
rejection with the store untouched; when the scan resolves a key whose
owner has is_active = false the outcome is the 403 accountDeactivated
rejection — a valid key never authenticates an inactive user. -/
theorem C7_api_guard_statuses (keys : List ApiKey) (users : List User)
    (presented : String) (now : Nat) :
    ((∀ k ∈ keys, k.is_active = true → k.verify_key presented now = false) →
       api_key_required keys users (some presented) now = (.invalidKey, keys) ∧
       ApiAuthResult.statusCode .invalidKey = 401) ∧
    (∀ k u, (keys.filter (fun k2 => k2.is_active)).find?
          (fun k2 => k2.verify_key presented now) = some k →
       users.find? (fun v => v.id == k.user_id) = some u →
       u.is_active = false →
       (api_key_required keys users (some presented) now).1 = .accountDeactivated ∧
       ApiAuthResult.statusCode .accountDeactivated = 403) := by
  constructor
  · intro hall
    have hnone : (keys.filter (fun k2 => k2.is_active)).find?
        (fun k2 => k2.verify_key presented now) = none := by
      apply List.find?_eq_none.mpr
      intro k hk
      have hm := List.mem_filter.mp hk
      simp [hall k hm.1 hm.2]
    exact ⟨by simp [api_key_required, hnone], rfl⟩
  · intro k u hfindk hfindu hinact
    exact ⟨by simp [api_key_required, hfindk, hfindu, hinact], rfl⟩

/-- Witness for C7: a wrong raw value against the sample key store is
401; the correct raw value whose owner is inactive is 403. -/
theorem C7_witness :
    api_key_required [sampleKey true none] [sampleInactiveUser] (some "badraw") 0 =
      (.invalidKey, [sampleKey true none]) ∧
    (api_key_required [sampleKey true none] [sampleInactiveUser]
        (some "rawsecret") 0).1 = .accountDeactivated :=
  ⟨((C7_api_guard_statuses [sampleKey true none] [sampleInactiveUser] "badraw" 0).1
      (by decide)).1,
   ((C7_api_guard_statuses [sampleKey true none] [sampleInactiveUser] "rawsecret" 0).2
      (sampleKey true none) sampleInactiveUser (by decide) (by decide) rfl).1⟩

/-- C5: the API-key round-trip.  Issuing a key for an active user u
(appending the record api_login creates, hashed from the fresh raw
value) gives a store on which: verifying the raw value resolves u;
verifying any other raw value (one that no stored key verifies) resolves
no user; revoking the key through the owner succeeds; and verifying the
original raw value after the revocation resolves no user. -/
theorem C5_api_key_roundtrip (keys : List ApiKey) (users : List User) (u : User)
    (raw rawOther device : String) (newKeyId now : Nat)
    (hu : users.find? (fun v => v.id == u.id) = some u)
    (hactive : u.is_active = true)
    (hfresh : ∀ k ∈ keys, k.verify_key raw now = false)
    (hother : rawOther ≠ raw)
    (hotherfresh : ∀ k ∈ keys, k.verify_key rawOther now = false) :
    (api_key_required (keys ++ [mkIssuedKey newKeyId device u.id raw now]) users
        (some raw) now).1 = .authenticated u ∧
    (api_key_required (keys ++ [mkIssuedKey newKeyId device u.id raw now]) users
        (some rawOther) now).1 = .invalidKey ∧
    (revoke_api_key (keys ++ [mkIssuedKey newKeyId device u.id raw now]) u.id
        newKeyId).1 = .revoked ∧
    (api_key_required
        (revoke_api_key (keys ++ [mkIssuedKey newKeyId device u.id raw now]) u.id
          newKeyId).2 users (some raw) now).1 = .invalidKey := by
  have hnkact : (mkIssuedKey newKeyId device u.id raw now).is_active = true := rfl
  have hnkraw : (mkIssuedKey newKeyId device u.id raw now).verify_key raw now = true := by
    simp [mkIssuedKey, ApiKey.set_key, ApiKey.verify_key, check_password_hash]
  have hgen : (generate_password_hash raw == generate_password_hash rawOther) = false := by
    rw [beq_eq_false_iff_ne]
    exact fun h => hother (generate_password_hash_inj h).symm
  have hnkother :
      (mkIssuedKey newKeyId device u.id raw now).verify_key rawOther now = false := by
    simp [mkIssuedKey, ApiKey.set_key, ApiKey.verify_key, check_password_hash, hgen]
  have hfilter : (keys ++ [mkIssuedKey newKeyId device u.id raw now]).filter
      (fun k => k.is_active) =
      keys.filter (fun k => k.is_active) ++ [mkIssuedKey newKeyId device u.id raw now] := by
    rw [List.filter_append]
    simp [hnkact]
  have hleftraw : (keys.filter (fun k => k.is_active)).find?
      (fun k => k.verify_key raw now) = none := by
    apply List.find?_eq_none.mpr
    intro k hk
    simp [hfresh k (List.mem_filter.mp hk).1]
  have hleftother : (keys.filter (fun k => k.is_active)).find?
      (fun k => k.verify_key rawOther now) = none := by
    apply List.find?_eq_none.mpr
    intro k hk
    simp [hotherfresh k (List.mem_filter.mp hk).1]
  have hfindraw : ((keys ++ [mkIssuedKey newKeyId device u.id raw now]).filter
      (fun k => k.is_active)).find? (fun k => k.verify_key raw now) =
      some (mkIssuedKey newKeyId device u.id raw now) := by
    rw [hfilter, find?_append_left_none hleftraw]
    simp [List.find?, hnkraw]
  have hfindother : ((keys ++ [mkIssuedKey newKeyId device u.id raw now]).filter
      (fun k => k.is_active)).find? (fun k => k.verify_key rawOther now) = none := by
    rw [hfilter, find?_append_left_none hleftother]
    simp [List.find?, hnkother]
  have huid : (mkIssuedKey newKeyId device u.id raw now).user_id = u.id := rfl
  have hrevoke : revoke_api_key (keys ++ [mkIssuedKey newKeyId device u.id raw now])
      u.id newKeyId =
      (.revoked, (keys ++ [mkIssuedKey newKeyId device u.id raw now]).filter
        (fun k => !(k.id == newKeyId && k.user_id == u.id))) := by
    have hmem : (mkIssuedKey newKeyId device u.id raw now) ∈
        keys ++ [mkIssuedKey newKeyId device u.id raw now] :=
      List.mem_append_right _ (List.mem_singleton.mpr rfl)
    have hsome : ((keys ++ [mkIssuedKey newKeyId device u.id raw now]).find?
        (fun k => k.id == newKeyId && k.user_id == u.id)).isSome :=
      List.find?_isSome.mpr ⟨mkIssuedKey newKeyId device u.id raw now, hmem,
        by simp only [Bool.and_eq_true, beq_iff_eq]; exact ⟨rfl, rfl⟩⟩
    unfold revoke_api_key
    cases hf : (keys ++ [mkIssuedKey newKeyId device u.id raw now]).find?
        (fun k => k.id == newKeyId && k.user_id == u.id) with
    | none => rw [hf] at hsome; simp at hsome
    | some k => rfl
  have hsurvivors : ∀ k ∈ (keys ++ [mkIssuedKey newKeyId device u.id raw now]).filter
      (fun k => !(k.id == newKeyId && k.user_id == u.id)),
      k.verify_key raw now = false := by
    intro k hk
    rcases List.mem_filter.mp hk with ⟨hmem, hpred⟩
    rcases List.mem_append.mp hmem with h | h
    · exact hfresh k h
    · rw [List.mem_singleton.mp h] at hpred
      simp [mkIssuedKey, ApiKey.set_key] at hpred
  have hafter : ((((keys ++ [mkIssuedKey newKeyId device u.id raw now]).filter
      (fun k => !(k.id == newKeyId && k.user_id == u.id))).filter
        (fun k => k.is_active)).find? (fun k => k.verify_key raw now)) = none := by
    apply List.find?_eq_none.mpr
    intro k hk
    simp [hsurvivors k (List.mem_filter.mp hk).1]
  refine ⟨?_, ?_, ?_, ?_⟩
  · simp only [api_key_required, hfindraw, huid, hu, hactive]
    rfl
  · simp only [api_key_required, hfindother]
  · rw [hrevoke]
  · rw [hrevoke]
    simp only [api_key_required, hafter]

/-- Witness for C5: an empty key store, the active sample user, the raw
value "freshraw" and a corrupted value "freshraw2". -/
theorem C5_witness :
    (api_key_required [mkIssuedKey 11 "cli" 1 "freshraw" 0] [sampleUser none 0]
        (some "freshraw") 0).1 = .authenticated (sampleUser none 0) ∧
    (api_key_required [mkIssuedKey 11 "cli" 1 "freshraw" 0] [sampleUser none 0]
        (some "freshraw2") 0).1 = .invalidKey ∧
    (revoke_api_key [mkIssuedKey 11 "cli" 1 "freshraw" 0] 1 11).1 = .revoked ∧
    (api_key_required (revoke_api_key [mkIssuedKey 11 "cli" 1 "freshraw" 0] 1 11).2
        [sampleUser none 0] (some "freshraw") 0).1 = .invalidKey := by
  have h := C5_api_key_roundtrip [] [sampleUser none 0] (sampleUser none 0)
    "freshraw" "freshraw2" "cli" 11 0 (by decide) rfl
    (by intro k hk; cases hk) (by decide) (by intro k hk; cases hk)
  simpa using h

end SecureFlask
